import Mathlib

/-!
Verification of the declarative data-model layer of the shopee-clone
repository (`app/models.py`).

The source file is a set of SQLModel/pydantic schema declarations: persistent
entities (database tables) and transient create/update shapes, each field
carrying declarative constraints (`max_length`, `min_length`, `regex`, `ge`,
`le`, `max_digits`, `decimal_places`, defaults, `primary_key`, `unique`).

Shallow embedding used here:
* each Python class becomes a Lean structure, with the Python field defaults
  becoming Lean structure-field defaults (fields whose Python default is a
  `default_factory` call such as `datetime.utcnow` have no static default and
  stay required);
* `Decimal` values become `PyDecimal` (mantissa / number of decimal places),
  which is exact, and the `max_digits` / `decimal_places` constraint becomes
  `checkDecimal`, following pydantic's decimal validation;
* each class's declared field constraints become a boolean `valid` function
  (a class declaring no field constraint gets the constantly true check);
* the `regex` constraint on email becomes the executable matcher `emailMatch`
  for the source pattern;
* table schemas (field name, type, primary key, unique flags) are also
  embedded as data (`persistentTables`) for schema-level claims;
* database-level behaviour (enforcement of a declared `unique` column by the
  persistence layer) is modelled explicitly where a claim needs it.
-/

/-- Model of a timestamp (`datetime`); the claims never inspect its value,
so an abstract tick count suffices. -/
structure UtcTime where
  ticks : Nat
deriving DecidableEq, Repr

/-- `UserRole` enum from the source: buyer / seller / admin. -/
inductive UserRole where
  | buyer
  | seller
  | admin
deriving DecidableEq, Repr

/-- `OrderStatus` enum from the source. -/
inductive OrderStatus where
  | pending
  | confirmed
  | processing
  | shipped
  | delivered
  | cancelled
  | returned
deriving DecidableEq, Repr

/-- `DeliveryStatus` enum from the source. -/
inductive DeliveryStatus where
  | pending
  | picked_up
  | in_transit
  | out_for_delivery
  | delivered
  | failed
  | returned
deriving DecidableEq, Repr

/-- Model of an arbitrary JSON value, for the `Dict[str, Any]` / JSON-column
fields (`dimensions`, `specifications`, `komerce_response`). -/
inductive JsonVal where
  | null
  | bool (b : Bool)
  | num (q : ℚ)
  | str (s : String)
  | arr (xs : List JsonVal)
  | obj (fields : List (String × JsonVal))

/-- A Python `Decimal` value: mantissa and number of decimal places, so the
represented value is exactly `mant / 10 ^ places`.  `Decimal("99.99")` is
`⟨9999, 2⟩`, `Decimal("0.0")` is `⟨0, 1⟩`.  The representation is exact:
no binary-floating-point rounding is involved. -/
structure PyDecimal where
  mant : Int
  places : Nat
deriving DecidableEq, Repr

/-- The exact rational value of a `PyDecimal`. -/
def PyDecimal.toRat (d : PyDecimal) : ℚ := (d.mant : ℚ) / (10 : ℚ) ^ d.places

/-- Fuel-based base-10 digit counter (`digitLenAux n n` is the number of
base-10 digits of `n`, with `0` counting as zero digits); structural on the
fuel so that it evaluates inside the kernel. -/
def digitLenAux : Nat → Nat → Nat
  | _, 0 => 0
  | 0, _ + 1 => 0
  | fuel + 1, n + 1 => digitLenAux fuel ((n + 1) / 10) + 1

/-- Number of base-10 digits of `n` (0 for `n = 0`). -/
def digitLen (n : Nat) : Nat := digitLenAux n n

/-- Number of digits in a decimal digit tuple of a mantissa (`Decimal("0")`
has the one-element tuple `(0,)`, hence at least 1). -/
def digitCount (n : Nat) : Nat := max 1 (digitLen n)

/-- Pydantic's validation of a `Decimal` against `max_digits` and
`decimal_places`: with `decimals` the number of decimal places and `digits`
the length of the digit tuple (padded when the value has leading fractional
zeros, e.g. `0.001` counts 3 digits), require
`digits ≤ max_digits`, `decimals ≤ decimal_places`, and
`digits - decimals ≤ max_digits - decimal_places` (the whole-digits check). -/
def checkDecimal (maxDigits decimalPlaces : Nat) (d : PyDecimal) : Bool :=
  let decimals := d.places
  let digits := max (digitCount d.mant.natAbs) decimals
  decide (digits ≤ maxDigits) && decide (decimals ≤ decimalPlaces) &&
    decide (digits - decimals ≤ maxDigits - decimalPlaces)

/-- Length check for an optional string field (`Optional[str]` with
`max_length`): `None` always passes. -/
def optLenOk (o : Option String) (n : Nat) : Bool :=
  match o with
  | none => true
  | some s => decide (s.length ≤ n)

/-- Character class `[a-zA-Z0-9_.+-]` of the email regex's local part. -/
def isLocalChar (c : Char) : Bool :=
  (c ≥ 'a' && c ≤ 'z') || (c ≥ 'A' && c ≤ 'Z') || (c ≥ '0' && c ≤ '9') ||
    c == '_' || c == '.' || c == '+' || c == '-'

/-- Character class `[a-zA-Z0-9-]` of the email regex's domain label. -/
def isDomainChar (c : Char) : Bool :=
  (c ≥ 'a' && c ≤ 'z') || (c ≥ 'A' && c ≤ 'Z') || (c ≥ '0' && c ≤ '9') ||
    c == '-'

/-- Character class `[a-zA-Z0-9-.]` of the email regex's final part. -/
def isTldChar (c : Char) : Bool := isDomainChar c || c == '.'

/-- Matcher for the part of the email regex after `@`:
`[a-zA-Z0-9-]+\.[a-zA-Z0-9-.]+` — some split at a dot, with a nonempty
domain-label prefix and a nonempty tail. -/
def domainMatch (t : List Char) : Bool :=
  (List.range t.length).any fun i =>
    t.get? i == some '.' && decide (0 < i) && (t.take i).all isDomainChar &&
      decide (i + 1 < t.length) && (t.drop (i + 1)).all isTldChar

/-- Executable matcher for the source's email regex
`[a-zA-Z0-9_.+-]+@[a-zA-Z0-9-]+\.[a-zA-Z0-9-.]+` (anchored at both ends):
the string matches iff it splits as `local ++ "@" ++ rest` with a nonempty
all-local-chars `local` and `rest` matching `domainMatch`. -/
def emailMatch (s : String) : Bool :=
  let cs := s.toList
  (List.range cs.length).any fun i =>
    cs.get? i == some '@' && decide (0 < i) && (cs.take i).all isLocalChar &&
      domainMatch (cs.drop (i + 1))

/-! ### Persistent entities and transient shapes as structures

Each Python class becomes a structure; Python field defaults become Lean
structure-field defaults.  Fields whose Python default is
`default_factory=datetime.utcnow` (a per-construction factory, not a static
value) stay required. -/

/-- `User` (table `users`). -/
structure User where
  id : Option Int := none
  email : String
  password_hash : String
  full_name : String
  phone : Option String := none
  role : UserRole := UserRole.buyer
  is_active : Bool := true
  created_at : UtcTime
  updated_at : UtcTime

/-- The declared field constraints of `User`: email `max_length=255` and the
email regex, `password_hash` / `full_name` / `phone` length bounds. -/
def User.validF (u : User) : Bool :=
  decide (u.email.length ≤ 255) && emailMatch u.email &&
    decide (u.password_hash.length ≤ 255) && decide (u.full_name.length ≤ 100) &&
    optLenOk u.phone 20

/-- `UserCreate` (transient). -/
structure UserCreate where
  email : String
  password : String
  full_name : String
  phone : Option String := none
  role : UserRole := UserRole.buyer

/-- Declared constraints of `UserCreate`: email regex and `max_length=255`,
password `min_length=8, max_length=100`, name/phone length bounds. -/
def UserCreate.validF (u : UserCreate) : Bool :=
  decide (u.email.length ≤ 255) && emailMatch u.email &&
    decide (8 ≤ u.password.length) && decide (u.password.length ≤ 100) &&
    decide (u.full_name.length ≤ 100) && optLenOk u.phone 20

/-- `Address` (table `addresses`). -/
structure Address where
  id : Option Int := none
  user_id : Int
  label : String
  full_address : String
  city : String
  state : String
  postal_code : String
  country : String := "Indonesia"
  is_default : Bool := false
  created_at : UtcTime

/-- `AddressCreate` (transient). -/
structure AddressCreate where
  label : String
  full_address : String
  city : String
  state : String
  postal_code : String
  country : String := "Indonesia"
  is_default : Bool := false

/-- `SellerProfile` (table `seller_profiles`). -/
structure SellerProfile where
  id : Option Int := none
  user_id : Int
  store_name : String
  store_description : Option String := none
  store_logo_url : Option String := none
  business_license : Option String := none
  is_verified : Bool := false
  rating : PyDecimal := ⟨0, 1⟩
  total_sales : Int := 0
  created_at : UtcTime

/-- Declared field constraints of `SellerProfile`: string length bounds and
`rating` with `max_digits=3, decimal_places=2`.  No lower/upper bound on
`rating` is declared. -/
def SellerProfile.validF (sp : SellerProfile) : Bool :=
  decide (sp.store_name.length ≤ 200) && optLenOk sp.store_description 1000 &&
    optLenOk sp.store_logo_url 500 && optLenOk sp.business_license 100 &&
    checkDecimal 3 2 sp.rating

/-- `Product` (table `products`). -/
structure Product where
  id : Option Int := none
  seller_id : Int
  category_id : Int
  name : String
  description : String
  price : PyDecimal
  original_price : Option PyDecimal := none
  stock_quantity : Int := 0
  min_order_quantity : Int := 1
  weight_kg : PyDecimal
  dimensions : List (String × JsonVal) := []
  images : List String := []
  specifications : List (String × JsonVal) := []
  tags : List String := []
  is_active : Bool := true
  is_featured : Bool := false
  rating : PyDecimal := ⟨0, 1⟩
  total_reviews : Int := 0
  total_sold : Int := 0
  created_at : UtcTime
  updated_at : UtcTime

/-- Check of an `Optional[Decimal]` field: `None` passes, `Some d` is checked
against `max_digits` / `decimal_places`. -/
def optDecOk (maxDigits decimalPlaces : Nat) (o : Option PyDecimal) : Bool :=
  match o with
  | none => true
  | some d => checkDecimal maxDigits decimalPlaces d

/-- Declared field constraints of `Product`: name/description length bounds,
`price` and `original_price` with `max_digits=12, decimal_places=2`,
`weight_kg` with `max_digits=8, decimal_places=3`, `rating` with
`max_digits=3, decimal_places=2`. -/
def Product.validF (p : Product) : Bool :=
  decide (p.name.length ≤ 200) && decide (p.description.length ≤ 2000) &&
    checkDecimal 12 2 p.price && optDecOk 12 2 p.original_price &&
    checkDecimal 8 3 p.weight_kg && checkDecimal 3 2 p.rating

/-- `ProductCreate` (transient). -/
structure ProductCreate where
  category_id : Int
  name : String
  description : String
  price : PyDecimal
  original_price : Option PyDecimal := none
  stock_quantity : Int := 0
  min_order_quantity : Int := 1
  weight_kg : PyDecimal
  dimensions : List (String × JsonVal) := []
  images : List String := []
  specifications : List (String × JsonVal) := []
  tags : List String := []

/-- Declared field constraints of `ProductCreate`: same as the corresponding
`Product` fields (no `rating` field exists here). -/
def ProductCreate.validF (p : ProductCreate) : Bool :=
  decide (p.name.length ≤ 200) && decide (p.description.length ≤ 2000) &&
    checkDecimal 12 2 p.price && optDecOk 12 2 p.original_price &&
    checkDecimal 8 3 p.weight_kg

/-- `CartItem` (table `cart_items`).  Note: its `quantity` field is declared
with `default=1` only — the source attaches no `ge` bound to it. -/
structure CartItem where
  id : Option Int := none
  user_id : Int
  product_id : Int
  quantity : Int := 1
  added_at : UtcTime

/-- Declared field constraints of `CartItem`: the source declares none
(no length, range or pattern constraint appears on any of its fields), so
validation of a `CartItem` record always succeeds. -/
def CartItem.validF (_ : CartItem) : Bool := true

/-- `CartItemCreate` (transient); `quantity` has `default=1, ge=1`. -/
structure CartItemCreate where
  product_id : Int
  quantity : Int := 1

/-- Declared constraints of `CartItemCreate`: `quantity ≥ 1`. -/
def CartItemCreate.validF (c : CartItemCreate) : Bool := decide (1 ≤ c.quantity)

/-- `CartItemUpdate` (transient); `quantity` has `ge=1`. -/
structure CartItemUpdate where
  quantity : Int

/-- Declared constraints of `CartItemUpdate`: `quantity ≥ 1`. -/
def CartItemUpdate.validF (c : CartItemUpdate) : Bool := decide (1 ≤ c.quantity)

/-- `Delivery` (table `deliveries`); `order_id` is declared `unique=True`. -/
structure Delivery where
  id : Option Int := none
  order_id : Int
  komerce_delivery_id : Option String := none
  courier_name : String
  courier_phone : Option String := none
  tracking_number : Option String := none
  status : DeliveryStatus := DeliveryStatus.pending
  estimated_delivery : Option UtcTime := none
  actual_delivery : Option UtcTime := none
  pickup_address : String
  delivery_address : String
  delivery_fee : PyDecimal
  insurance_fee : PyDecimal := ⟨0, 2⟩
  delivery_notes : Option String := none
  komerce_response : List (String × JsonVal) := []
  created_at : UtcTime
  updated_at : UtcTime

/-- `ProductReview` (table `product_reviews`); `rating` has `ge=1, le=5`. -/
structure ProductReview where
  id : Option Int := none
  product_id : Int
  user_id : Int
  order_item_id : Option Int := none
  rating : Int
  title : Option String := none
  comment : Option String := none
  images : List String := []
  is_verified_purchase : Bool := false
  helpful_count : Int := 0
  created_at : UtcTime

/-- The declared constraints of `ProductReview` other than the rating range:
title and comment length bounds. -/
def ProductReview.restValidF (r : ProductReview) : Bool :=
  optLenOk r.title 200 && optLenOk r.comment 1000

/-- All declared field constraints of `ProductReview`: `1 ≤ rating ≤ 5` plus
the length bounds. -/
def ProductReview.validF (r : ProductReview) : Bool :=
  decide (1 ≤ r.rating) && decide (r.rating ≤ 5) && r.restValidF

/-- `ProductReviewCreate` (transient); `rating` has `ge=1, le=5`. -/
structure ProductReviewCreate where
  rating : Int
  title : Option String := none
  comment : Option String := none
  images : List String := []

/-- The declared constraints of `ProductReviewCreate` other than the rating
range. -/
def ProductReviewCreate.restValidF (r : ProductReviewCreate) : Bool :=
  optLenOk r.title 200 && optLenOk r.comment 1000

/-- All declared field constraints of `ProductReviewCreate`. -/
def ProductReviewCreate.validF (r : ProductReviewCreate) : Bool :=
  decide (1 ≤ r.rating) && decide (r.rating ≤ 5) && r.restValidF

/-! ### The table schemas as data

For schema-level claims (which tables carry which fields), the ten
`table=True` classes are also embedded as lists of field descriptors. -/

/-- Column type of a schema field. -/
inductive FType where
  | intF
  | strF
  | boolF
  | decimalF
  | datetimeF
  | jsonF
  | enumF
deriving DecidableEq, Repr

/-- Descriptor of one declared field of a persistent table: name, column
type, and the `primary_key` / `unique` / `Optional` markers. -/
structure FieldSpec where
  fname : String
  ftype : FType
  primaryKey : Bool := false
  uniqueCol : Bool := false
  nullable : Bool := false
deriving DecidableEq, Repr

/-- Fields of table `users`. -/
def usersFields : List FieldSpec :=
  [{ fname := "id", ftype := .intF, primaryKey := true, nullable := true },
   { fname := "email", ftype := .strF, uniqueCol := true },
   { fname := "password_hash", ftype := .strF },
   { fname := "full_name", ftype := .strF },
   { fname := "phone", ftype := .strF, nullable := true },
   { fname := "role", ftype := .enumF },
   { fname := "is_active", ftype := .boolF },
   { fname := "created_at", ftype := .datetimeF },
   { fname := "updated_at", ftype := .datetimeF }]

/-- Fields of table `addresses`. -/
def addressesFields : List FieldSpec :=
  [{ fname := "id", ftype := .intF, primaryKey := true, nullable := true },
   { fname := "user_id", ftype := .intF },
   { fname := "label", ftype := .strF },
   { fname := "full_address", ftype := .strF },
   { fname := "city", ftype := .strF },
   { fname := "state", ftype := .strF },
   { fname := "postal_code", ftype := .strF },
   { fname := "country", ftype := .strF },
   { fname := "is_default", ftype := .boolF },
   { fname := "created_at", ftype := .datetimeF }]

/-- Fields of table `seller_profiles`. -/
def sellerProfilesFields : List FieldSpec :=
  [{ fname := "id", ftype := .intF, primaryKey := true, nullable := true },
   { fname := "user_id", ftype := .intF, uniqueCol := true },
   { fname := "store_name", ftype := .strF },
   { fname := "store_description", ftype := .strF, nullable := true },
   { fname := "store_logo_url", ftype := .strF, nullable := true },
   { fname := "business_license", ftype := .strF, nullable := true },
   { fname := "is_verified", ftype := .boolF },
   { fname := "rating", ftype := .decimalF },
   { fname := "total_sales", ftype := .intF },
   { fname := "created_at", ftype := .datetimeF }]

/-- Fields of table `categories`. -/
def categoriesFields : List FieldSpec :=
  [{ fname := "id", ftype := .intF, primaryKey := true, nullable := true },
   { fname := "name", ftype := .strF, uniqueCol := true },
   { fname := "description", ftype := .strF, nullable := true },
   { fname := "parent_id", ftype := .intF, nullable := true },
   { fname := "image_url", ftype := .strF, nullable := true },
   { fname := "is_active", ftype := .boolF },
   { fname := "sort_order", ftype := .intF },
   { fname := "created_at", ftype := .datetimeF }]

/-- Fields of table `products`. -/
def productsFields : List FieldSpec :=
  [{ fname := "id", ftype := .intF, primaryKey := true, nullable := true },
   { fname := "seller_id", ftype := .intF },
   { fname := "category_id", ftype := .intF },
   { fname := "name", ftype := .strF },
   { fname := "description", ftype := .strF },
   { fname := "price", ftype := .decimalF },
   { fname := "original_price", ftype := .decimalF, nullable := true },
   { fname := "stock_quantity", ftype := .intF },
   { fname := "min_order_quantity", ftype := .intF },
   { fname := "weight_kg", ftype := .decimalF },
   { fname := "dimensions", ftype := .jsonF },
   { fname := "images", ftype := .jsonF },
   { fname := "specifications", ftype := .jsonF },
   { fname := "tags", ftype := .jsonF },
   { fname := "is_active", ftype := .boolF },
   { fname := "is_featured", ftype := .boolF },
   { fname := "rating", ftype := .decimalF },
   { fname := "total_reviews", ftype := .intF },
   { fname := "total_sold", ftype := .intF },
   { fname := "created_at", ftype := .datetimeF },
   { fname := "updated_at", ftype := .datetimeF }]

/-- Fields of table `cart_items`. -/
def cartItemsFields : List FieldSpec :=
  [{ fname := "id", ftype := .intF, primaryKey := true, nullable := true },
   { fname := "user_id", ftype := .intF },
   { fname := "product_id", ftype := .intF },
   { fname := "quantity", ftype := .intF },
   { fname := "added_at", ftype := .datetimeF }]

/-- Fields of table `orders`. -/
def ordersFields : List FieldSpec :=
  [{ fname := "id", ftype := .intF, primaryKey := true, nullable := true },
   { fname := "user_id", ftype := .intF },
   { fname := "shipping_address_id", ftype := .intF },
   { fname := "order_number", ftype := .strF, uniqueCol := true },
   { fname := "status", ftype := .enumF },
   { fname := "subtotal", ftype := .decimalF },
   { fname := "shipping_fee", ftype := .decimalF },
   { fname := "tax_amount", ftype := .decimalF },
   { fname := "discount_amount", ftype := .decimalF },
   { fname := "total_amount", ftype := .decimalF },
   { fname := "payment_method", ftype := .strF },
   { fname := "payment_status", ftype := .strF },
   { fname := "notes", ftype := .strF, nullable := true },
   { fname := "created_at", ftype := .datetimeF },
   { fname := "updated_at", ftype := .datetimeF }]

/-- Fields of table `order_items` (note: no timestamp field is declared). -/
def orderItemsFields : List FieldSpec :=
  [{ fname := "id", ftype := .intF, primaryKey := true, nullable := true },
   { fname := "order_id", ftype := .intF },
   { fname := "product_id", ftype := .intF },
   { fname := "quantity", ftype := .intF },
   { fname := "unit_price", ftype := .decimalF },
   { fname := "total_price", ftype := .decimalF },
   { fname := "seller_id", ftype := .intF }]

/-- Fields of table `deliveries`. -/
def deliveriesFields : List FieldSpec :=
  [{ fname := "id", ftype := .intF, primaryKey := true, nullable := true },
   { fname := "order_id", ftype := .intF, uniqueCol := true },
   { fname := "komerce_delivery_id", ftype := .strF, nullable := true },
   { fname := "courier_name", ftype := .strF },
   { fname := "courier_phone", ftype := .strF, nullable := true },
   { fname := "tracking_number", ftype := .strF, nullable := true },
   { fname := "status", ftype := .enumF },
   { fname := "estimated_delivery", ftype := .datetimeF, nullable := true },
   { fname := "actual_delivery", ftype := .datetimeF, nullable := true },
   { fname := "pickup_address", ftype := .strF },
   { fname := "delivery_address", ftype := .strF },
   { fname := "delivery_fee", ftype := .decimalF },
   { fname := "insurance_fee", ftype := .decimalF },
   { fname := "delivery_notes", ftype := .strF, nullable := true },
   { fname := "komerce_response", ftype := .jsonF },
   { fname := "created_at", ftype := .datetimeF },
   { fname := "updated_at", ftype := .datetimeF }]

/-- Fields of table `product_reviews`. -/
def productReviewsFields : List FieldSpec :=
  [{ fname := "id", ftype := .intF, primaryKey := true, nullable := true },
   { fname := "product_id", ftype := .intF },
   { fname := "user_id", ftype := .intF },
   { fname := "order_item_id", ftype := .intF, nullable := true },
   { fname := "rating", ftype := .intF },
   { fname := "title", ftype := .strF, nullable := true },
   { fname := "comment", ftype := .strF, nullable := true },
   { fname := "images", ftype := .jsonF },
   { fname := "is_verified_purchase", ftype := .boolF },
   { fname := "helpful_count", ftype := .intF },
   { fname := "created_at", ftype := .datetimeF }]

/-- All ten persistent tables of the schema, in declaration order. -/
def persistentTables : List (String × List FieldSpec) :=
  [("users", usersFields), ("addresses", addressesFields),
   ("seller_profiles", sellerProfilesFields), ("categories", categoriesFields),
   ("products", productsFields), ("cart_items", cartItemsFields),
   ("orders", ordersFields), ("order_items", orderItemsFields),
   ("deliveries", deliveriesFields), ("product_reviews", productReviewsFields)]

/-- A table has a unique numeric identity field: an integer primary key
(a primary key column is unique by definition). -/
def hasUniqueNumericId (fs : List FieldSpec) : Bool :=
  fs.any fun f => f.primaryKey && (f.ftype == FType.intF)

/-- A table has a field literally named `created_at` of timestamp type. -/
def hasCreatedAt (fs : List FieldSpec) : Bool :=
  fs.any fun f => (f.fname == "created_at") && (f.ftype == FType.datetimeF)

/-- A table has a creation timestamp: a `datetime` field named `created_at`
or `added_at` (the latter is `CartItem`'s name for it). -/
def hasCreationTimestamp (fs : List FieldSpec) : Bool :=
  fs.any fun f =>
    (f.fname == "created_at" || f.fname == "added_at") && (f.ftype == FType.datetimeF)

/-! ### Database-level behaviour for the `deliveries` table -/

/-- Modelled from the spec: the persistence/ORM collaborator that executes
inserts is not part of the source file; per the spec it enforces "primary
keys, foreign keys, and unique constraints as declared", so inserting a
`Delivery` whose `order_id` (declared `unique=True`) already occurs in the
table is rejected, and a successful insert appends the row. -/
def insertDelivery (ds : List Delivery) (d : Delivery) : Option (List Delivery) :=
  if ds.any (fun e => decide (e.order_id = d.order_id)) then none
  else some (ds ++ [d])

/-- Modelled from the spec: atomic delete of the row with primary key `i`
from the `deliveries` table. -/
def deleteDelivery (ds : List Delivery) (i : Int) : List Delivery :=
  ds.filter fun e => decide (¬ e.id = some i)

/-- Database states of the `deliveries` table reachable from the empty table
by successful inserts and by deletes. -/
inductive DeliveriesReachable : List Delivery → Prop where
  | empty : DeliveriesReachable []
  | insert {ds ds' : List Delivery} {d : Delivery} :
      DeliveriesReachable ds → insertDelivery ds d = some ds' →
      DeliveriesReachable ds'
  | delete {ds : List Delivery} (i : Int) :
      DeliveriesReachable ds → DeliveriesReachable (deleteDelivery ds i)

/-- No two distinct rows of the `deliveries` table reference the same order. -/
def deliveryOrderIdsUnique (ds : List Delivery) : Prop :=
  List.Pairwise (fun a b => a.order_id ≠ b.order_id) ds

/-! ### Applying a Create shape to build a persistent entity -/

/-- Modelled from the spec: the application step that builds a persistent
`Product` from a validated `ProductCreate` is not part of the source file
(the spec describes the transient shapes as "used to validate inbound data
before constructing ... a persistent entity" and the round-trip as reading
back identical field values), so it is the field-wise copy of every
`ProductCreate` field into the `Product`, with the seller reference and the
timestamps supplied by the caller and the remaining fields at their declared
defaults. -/
def Product.fromCreate (sellerId : Int) (now : UtcTime) (c : ProductCreate) : Product :=
  { seller_id := sellerId
    category_id := c.category_id
    name := c.name
    description := c.description
    price := c.price
    original_price := c.original_price
    stock_quantity := c.stock_quantity
    min_order_quantity := c.min_order_quantity
    weight_kg := c.weight_kg
    dimensions := c.dimensions
    images := c.images
    specifications := c.specifications
    tags := c.tags
    created_at := now
    updated_at := now }

/-! ### Concrete sample values -/

/-- A valid `ProductCreate`: price `Decimal("99.99")`, weight
`Decimal("0.500")`. -/
def sampleProductCreate : ProductCreate :=
  { category_id := 1, name := "Phone", description := "A phone",
    price := ⟨9999, 2⟩, weight_kg := ⟨500, 3⟩ }

/-- A `ProductCreate` whose price is `Decimal("19999999999.99")` (13 digits). -/
def overlongPriceCreate : ProductCreate :=
  { category_id := 1, name := "Phone", description := "A phone",
    price := ⟨1999999999999, 2⟩, weight_kg := ⟨500, 3⟩ }

/-- A valid `Product` with price `Decimal("99.99")`. -/
def sampleProduct : Product :=
  { seller_id := 1, category_id := 1, name := "Phone", description := "A phone",
    price := ⟨9999, 2⟩, weight_kg := ⟨500, 3⟩, created_at := ⟨0⟩, updated_at := ⟨0⟩ }

/-- A `Product` whose price is `Decimal("19999999999.99")` (13 digits). -/
def overlongPriceProduct : Product :=
  { seller_id := 1, category_id := 1, name := "Phone", description := "A phone",
    price := ⟨1999999999999, 2⟩, weight_kg := ⟨500, 3⟩,
    created_at := ⟨0⟩, updated_at := ⟨0⟩ }

/-- A `CartItem` row with `quantity = 0` (all other fields ordinary). -/
def zeroQtyCartItem : CartItem :=
  { user_id := 1, product_id := 1, quantity := 0, added_at := ⟨0⟩ }

/-- A `SellerProfile` whose rating is `Decimal("9.99")`: within the declared
`max_digits=3, decimal_places=2` shape but far above 5. -/
def inflatedRatingProfile : SellerProfile :=
  { user_id := 1, store_name := "Store", rating := ⟨999, 2⟩, created_at := ⟨0⟩ }

/-- A `ProductReview` with rating 3 and no title/comment. -/
def sampleReview : ProductReview :=
  { product_id := 1, user_id := 1, rating := 3, created_at := ⟨0⟩ }

/-- A `ProductReviewCreate` with rating 3. -/
def sampleReviewCreate : ProductReviewCreate := { rating := 3 }

/-- A `UserCreate` with email `"a@b.co"` and a password of length exactly 8. -/
def sampleUserCreate : UserCreate :=
  { email := "a@b.co", password := "12345678", full_name := "Alice" }

/-- A `UserCreate` with email `"not-an-email"`. -/
def badEmailUserCreate : UserCreate :=
  { email := "not-an-email", password := "12345678", full_name := "Bob" }

/-- A `Delivery` row referencing order 1. -/
def sampleDelivery : Delivery :=
  { order_id := 1, courier_name := "JNE", pickup_address := "Depot",
    delivery_address := "Home", delivery_fee := ⟨1000, 2⟩,
    created_at := ⟨0⟩, updated_at := ⟨0⟩ }

/-! ### Supporting lemmas -/

theorem digitLenAux_eq_digits_length (fuel n : Nat) (h : n ≤ fuel) :
    digitLenAux fuel n = (Nat.digits 10 n).length := by
  induction fuel generalizing n with
  | zero =>
    interval_cases n
    simp [digitLenAux]
  | succ fuel ih =>
    match n with
    | 0 => simp [digitLenAux]
    | m + 1 =>
      have hdiv : (m + 1) / 10 ≤ fuel :=
        Nat.le_of_lt_succ (Nat.lt_of_lt_of_le (Nat.div_lt_self (Nat.succ_pos m) (by omega)) h)
      rw [digitLenAux, ih _ hdiv, Nat.digits_def' (by omega : (1:Nat) < 10) (Nat.succ_pos m)]
      simp

theorem digitLen_eq_digits_length (n : Nat) : digitLen n = (Nat.digits 10 n).length :=
  digitLenAux_eq_digits_length n n le_rfl

/-- A mantissa is strictly below `10 ^ k` once its digit count is at most
`k` (`k ≥ 1`). -/
theorem lt_pow_of_digitCount_le {n k : Nat} (h : digitCount n ≤ k) : n < 10 ^ k := by
  have hlen : (Nat.digits 10 n).length ≤ k := by
    have := digitLen_eq_digits_length n
    unfold digitCount at h
    omega
  calc n < 10 ^ (Nat.digits 10 n).length := Nat.lt_base_pow_length_digits (by omega)
    _ ≤ 10 ^ k := Nat.pow_le_pow_right (by omega) hlen

/-- A decimal passing `checkDecimal maxD decP` has absolute value below
`10 ^ (maxD - decP)` (the whole-digits budget). -/
theorem checkDecimal_abs_toRat_lt {maxD decP : Nat} {d : PyDecimal}
    (h : checkDecimal maxD decP d = true) :
    |d.toRat| < (10 : ℚ) ^ (maxD - decP) := by
  unfold checkDecimal at h
  simp only [Bool.and_eq_true, decide_eq_true_eq] at h
  obtain ⟨⟨h1, h2⟩, h3⟩ := h
  have hc : digitCount d.mant.natAbs ≤ max (digitCount d.mant.natAbs) d.places :=
    Nat.le_max_left _ _
  have hdc : digitCount d.mant.natAbs ≤ d.places + (maxD - decP) := by omega
  have hmant : d.mant.natAbs < 10 ^ (d.places + (maxD - decP)) :=
    lt_pow_of_digitCount_le hdc
  have h10 : (0 : ℚ) < (10 : ℚ) ^ d.places := by positivity
  rw [PyDecimal.toRat, abs_div, abs_of_pos h10, div_lt_iff₀ h10]
  have habs : |(d.mant : ℚ)| = ((d.mant.natAbs : ℚ)) := by
    rw [← Int.cast_abs, Int.abs_eq_natAbs]
    exact Int.cast_natCast _
  rw [habs]
  calc ((d.mant.natAbs : ℚ)) < (10 : ℚ) ^ (d.places + (maxD - decP)) := by
        exact_mod_cast hmant
    _ = 10 ^ (maxD - decP) * 10 ^ d.places := by rw [pow_add]; ring

/-- A successful insert into the `deliveries` table means no existing row had
the new row's `order_id`, and the new state appends the row. -/
theorem insertDelivery_eq_some {ds ds' : List Delivery} {d : Delivery}
    (h : insertDelivery ds d = some ds') :
    (∀ e ∈ ds, e.order_id ≠ d.order_id) ∧ ds' = ds ++ [d] := by
  unfold insertDelivery at h
  by_cases hany : (ds.any fun e => decide (e.order_id = d.order_id)) = true
  · simp [hany] at h
  · rw [Bool.not_eq_true] at hany
    simp only [hany, Bool.false_eq_true, if_false, Option.some.injEq] at h
    refine ⟨?_, h.symm⟩
    intro e he heq
    have : (ds.any fun e => decide (e.order_id = d.order_id)) = true := by
      simp only [List.any_eq_true, decide_eq_true_eq]
      exact ⟨e, he, heq⟩
    rw [hany] at this
    exact Bool.false_ne_true this


/-! ### Claim theorems -/

/-- C1: `Product.price` and `ProductCreate.price` are exact fixed-point
decimals with `max_digits=12, decimal_places=2`: any product (persistent or
transient) whose price is `Decimal("19999999999.99")` (13 digits) fails
validation, while a product with price `Decimal("99.99")` validates and the
stored value is exactly the rational 99.99, not a binary-float
approximation. -/
theorem product_price_fixed_point :
    (∀ p : ProductCreate, p.price = ⟨1999999999999, 2⟩ → p.validF = false) ∧
    (∀ p : Product, p.price = ⟨1999999999999, 2⟩ → p.validF = false) ∧
    sampleProductCreate.validF = true ∧
    sampleProductCreate.price.toRat = 9999 / 100 ∧
    sampleProduct.validF = true ∧
    sampleProduct.price.toRat = 9999 / 100 := by
  have hbad : checkDecimal 12 2 (⟨1999999999999, 2⟩ : PyDecimal) = false := by decide
  refine ⟨fun p hp => ?_, fun p hp => ?_, by decide, ?_, by decide, ?_⟩
  · simp [ProductCreate.validF, hp, hbad]
  · simp [Product.validF, hp, hbad]
  · norm_num [sampleProductCreate, PyDecimal.toRat]
  · norm_num [sampleProduct, PyDecimal.toRat]

/-- C1 witness: the theorem applied to the concrete products with the
13-digit price. -/
theorem product_price_fixed_point_witness :
    overlongPriceCreate.validF = false ∧ overlongPriceProduct.validF = false :=
  ⟨product_price_fixed_point.1 overlongPriceCreate rfl,
   product_price_fixed_point.2.1 overlongPriceProduct rfl⟩

/-- C2 counterexample: the persistent `CartItem` declares no lower bound on
`quantity` (`Field(default=1)` only), so the row with `quantity = 0` passes
every declared field constraint, refuting the claim that zero quantity is
rejected for the persistent entity. -/
theorem cart_item_quantity_counterexample :
    zeroQtyCartItem.validF = true ∧ ¬ (1 ≤ zeroQtyCartItem.quantity) := by
  constructor
  · rfl
  · decide

/-- C2 amended: the `quantity ≥ 1` bound is declared (and zero or negative
quantity rejected) exactly on the transient `CartItemCreate` and
`CartItemUpdate` shapes; the persistent `CartItem` declares no field
constraint at all, so every `CartItem` record validates. -/
theorem cart_item_quantity_amended :
    (∀ c : CartItemCreate, c.validF = true ↔ 1 ≤ c.quantity) ∧
    (∀ c : CartItemUpdate, c.validF = true ↔ 1 ≤ c.quantity) ∧
    (∀ ci : CartItem, ci.validF = true) := by
  refine ⟨fun c => ?_, fun c => ?_, fun ci => rfl⟩ <;>
    simp [CartItemCreate.validF, CartItemUpdate.validF]

/-- C3 counterexample: `SellerProfile.rating` is declared only with
`max_digits=3, decimal_places=2` — no `ge`/`le` bound — so the profile with
rating `Decimal("9.99")` passes every declared field constraint although its
rating exceeds 5, refuting the claim that ratings outside [0,5] are
rejected. -/
theorem seller_rating_counterexample :
    inflatedRatingProfile.validF = true ∧
    ¬ inflatedRatingProfile.rating.toRat ≤ 5 := by
  constructor
  · decide
  · norm_num [inflatedRatingProfile, PyDecimal.toRat]

/-- C3 amended: the only declared constraint on `SellerProfile.rating` is
`max_digits=3, decimal_places=2`, which bounds any validated rating to the
open interval (-10, 10); no [0,5] bound is enforced, and in particular the
rating `Decimal("9.99") > 5` is accepted. -/
theorem seller_rating_amended (sp : SellerProfile) (h : sp.validF = true) :
    -10 < sp.rating.toRat ∧ sp.rating.toRat < 10 := by
  have hcd : checkDecimal 3 2 sp.rating = true := by
    unfold SellerProfile.validF at h
    simp only [Bool.and_eq_true] at h
    exact h.2
  have habs := checkDecimal_abs_toRat_lt hcd
  norm_num at habs
  exact ⟨(abs_lt.mp habs).1, (abs_lt.mp habs).2⟩

/-- C3 witness: the amended bound applied to the concrete profile with
rating 9.99. -/
theorem seller_rating_amended_witness :
    -10 < inflatedRatingProfile.rating.toRat ∧
    inflatedRatingProfile.rating.toRat < 10 :=
  seller_rating_amended inflatedRatingProfile (by decide)

/-- C4: for `ProductReview` and `ProductReviewCreate`, a validated record
always has rating in [1,5], and when the remaining declared constraints
(title/comment lengths) hold, validation succeeds exactly when the rating
lies in [1,5] — so 0, 6 and every out-of-range value are rejected and each
of 1,2,3,4,5 is accepted. -/
theorem review_rating_range :
    (∀ r : ProductReview, r.validF = true → 1 ≤ r.rating ∧ r.rating ≤ 5) ∧
    (∀ r : ProductReviewCreate, r.validF = true → 1 ≤ r.rating ∧ r.rating ≤ 5) ∧
    (∀ r : ProductReview, r.restValidF = true →
      (r.validF = true ↔ 1 ≤ r.rating ∧ r.rating ≤ 5)) ∧
    (∀ r : ProductReviewCreate, r.restValidF = true →
      (r.validF = true ↔ 1 ≤ r.rating ∧ r.rating ≤ 5)) := by
  refine ⟨fun r h => ?_, fun r h => ?_, fun r h => ?_, fun r h => ?_⟩ <;>
    simp_all [ProductReview.validF, ProductReviewCreate.validF]

/-- C4 witness: the theorem applied to the concrete review and review-create
with rating 3. -/
theorem review_rating_range_witness :
    (1 ≤ sampleReview.rating ∧ sampleReview.rating ≤ 5) ∧
    (sampleReviewCreate.validF = true ↔
      1 ≤ sampleReviewCreate.rating ∧ sampleReviewCreate.rating ≤ 5) :=
  ⟨review_rating_range.1 sampleReview (by decide),
   review_rating_range.2.2.2 sampleReviewCreate (by decide)⟩

/-- C5: every validated `User` or `UserCreate` has an email matching the
source regex (local part, `@`, domain, dot, tld); a `UserCreate` whose email
is `"not-an-email"` always fails validation, the minimum password length is
8, and the concrete `UserCreate` with email `"a@b.co"` and the length-8
password validates. -/
theorem user_email_validation :
    (∀ u : User, u.validF = true → emailMatch u.email = true) ∧
    (∀ u : UserCreate, u.validF = true → emailMatch u.email = true) ∧
    (∀ u : UserCreate, u.validF = true → 8 ≤ u.password.length) ∧
    (∀ u : UserCreate, u.email = "not-an-email" → u.validF = false) ∧
    sampleUserCreate.validF = true ∧ sampleUserCreate.password.length = 8 := by
  have hbad : emailMatch "not-an-email" = false := by decide
  refine ⟨fun u h => ?_, fun u h => ?_, fun u h => ?_, fun u h => ?_,
    by decide, by decide⟩
  · unfold User.validF at h
    simp only [Bool.and_eq_true] at h
    exact h.1.1.1.2
  · unfold UserCreate.validF at h
    simp only [Bool.and_eq_true] at h
    exact h.1.1.1.1.2
  · unfold UserCreate.validF at h
    simp only [Bool.and_eq_true, decide_eq_true_eq] at h
    exact h.1.1.1.2
  · simp [UserCreate.validF, h, hbad]

/-- C5 witness: the theorem applied to the concrete valid and invalid
user-create shapes. -/
theorem user_email_validation_witness :
    emailMatch sampleUserCreate.email = true ∧
    8 ≤ sampleUserCreate.password.length ∧
    badEmailUserCreate.validF = false :=
  ⟨user_email_validation.2.1 sampleUserCreate (by decide),
   user_email_validation.2.2.1 sampleUserCreate (by decide),
   user_email_validation.2.2.2.1 badEmailUserCreate rfl⟩

/-- C6: in every database state of the `deliveries` table reachable from the
empty table by successful inserts and deletes, no two rows share an
`order_id` — the declared `unique=True` on `Delivery.order_id` means each
order has at most one delivery. -/
theorem delivery_order_id_unique (ds : List Delivery)
    (h : DeliveriesReachable ds) : deliveryOrderIdsUnique ds := by
  induction h with
  | empty => exact List.Pairwise.nil
  | insert hre hins ih =>
    obtain ⟨hne, rfl⟩ := insertDelivery_eq_some hins
    rw [deliveryOrderIdsUnique, List.pairwise_append]
    refine ⟨ih, List.pairwise_singleton _ _, ?_⟩
    intro a ha b hb
    rw [List.mem_singleton] at hb
    subst hb
    exact hne a ha
  | delete i hre ih => exact List.Pairwise.filter _ ih

/-- C6 witness: the theorem applied to the state reached by inserting one
delivery row into the empty table. -/
theorem delivery_order_id_unique_witness :
    deliveryOrderIdsUnique [sampleDelivery] :=
  delivery_order_id_unique [sampleDelivery]
    (DeliveriesReachable.insert DeliveriesReachable.empty rfl)

/-- C7: building a persistent `Product` from a valid `ProductCreate` and
reading its fields back yields exactly the values supplied in the create
shape, for every field of the create shape. -/
theorem product_create_roundtrip (sid : Int) (now : UtcTime)
    (c : ProductCreate) (_h : c.validF = true) :
    (Product.fromCreate sid now c).category_id = c.category_id ∧
    (Product.fromCreate sid now c).name = c.name ∧
    (Product.fromCreate sid now c).description = c.description ∧
    (Product.fromCreate sid now c).price = c.price ∧
    (Product.fromCreate sid now c).original_price = c.original_price ∧
    (Product.fromCreate sid now c).stock_quantity = c.stock_quantity ∧
    (Product.fromCreate sid now c).min_order_quantity = c.min_order_quantity ∧
    (Product.fromCreate sid now c).weight_kg = c.weight_kg ∧
    (Product.fromCreate sid now c).dimensions = c.dimensions ∧
    (Product.fromCreate sid now c).images = c.images ∧
    (Product.fromCreate sid now c).specifications = c.specifications ∧
    (Product.fromCreate sid now c).tags = c.tags :=
  ⟨rfl, rfl, rfl, rfl, rfl, rfl, rfl, rfl, rfl, rfl, rfl, rfl⟩

/-- C7 witness: the round-trip applied to the concrete valid
`sampleProductCreate`. -/
theorem product_create_roundtrip_witness :
    (Product.fromCreate 1 ⟨0⟩ sampleProductCreate).category_id =
        sampleProductCreate.category_id ∧
    (Product.fromCreate 1 ⟨0⟩ sampleProductCreate).name = sampleProductCreate.name ∧
    (Product.fromCreate 1 ⟨0⟩ sampleProductCreate).description =
        sampleProductCreate.description ∧
    (Product.fromCreate 1 ⟨0⟩ sampleProductCreate).price = sampleProductCreate.price ∧
    (Product.fromCreate 1 ⟨0⟩ sampleProductCreate).original_price =
        sampleProductCreate.original_price ∧
    (Product.fromCreate 1 ⟨0⟩ sampleProductCreate).stock_quantity =
        sampleProductCreate.stock_quantity ∧
    (Product.fromCreate 1 ⟨0⟩ sampleProductCreate).min_order_quantity =
        sampleProductCreate.min_order_quantity ∧
    (Product.fromCreate 1 ⟨0⟩ sampleProductCreate).weight_kg =
        sampleProductCreate.weight_kg ∧
    (Product.fromCreate 1 ⟨0⟩ sampleProductCreate).dimensions =
        sampleProductCreate.dimensions ∧
    (Product.fromCreate 1 ⟨0⟩ sampleProductCreate).images = sampleProductCreate.images ∧
    (Product.fromCreate 1 ⟨0⟩ sampleProductCreate).specifications =
        sampleProductCreate.specifications ∧
    (Product.fromCreate 1 ⟨0⟩ sampleProductCreate).tags = sampleProductCreate.tags :=
  product_create_roundtrip 1 ⟨0⟩ sampleProductCreate (by decide)

/-- C8 counterexample: the `order_items` table is a persistent entity of the
schema, yet it declares no timestamp field at all — neither a `created_at`
nor any other `datetime` column — refuting the claim that every persistent
entity has a created-at timestamp field. -/
theorem entity_timestamp_counterexample :
    ("order_items", orderItemsFields) ∈ persistentTables ∧
    hasCreatedAt orderItemsFields = false ∧
    hasCreationTimestamp orderItemsFields = false := by
  refine ⟨?_, by decide, by decide⟩
  simp [persistentTables]

/-- C8 amended: every persistent entity of the schema has a unique numeric
identity field (an integer primary key), and every one except `OrderItem`
has a creation timestamp field (named `created_at`, or `added_at` on
`CartItem`); `OrderItem` declares no timestamp. -/
theorem entity_id_timestamp_amended :
    ∀ t ∈ persistentTables,
      hasUniqueNumericId t.2 = true ∧
        (t.1 = "order_items" ∨ hasCreationTimestamp t.2 = true) := by decide

/-- C8 witness: the amended statement applied to the `users` table. -/
theorem entity_id_timestamp_amended_witness :
    hasUniqueNumericId usersFields = true ∧
      ("users" = "order_items" ∨ hasCreationTimestamp usersFields = true) :=
  entity_id_timestamp_amended ("users", usersFields) (by decide)

/-- C9: an `Address` or `AddressCreate` constructed without an explicit
`country` gets `country = "Indonesia"`, and one constructed without an
explicit `is_default` gets `is_default = false`, whatever the supplied
values of the remaining fields. -/
theorem address_defaults :
    (∀ (uid : Int) (lb fa ct st pc : String) (t : UtcTime),
      ({ user_id := uid, label := lb, full_address := fa, city := ct,
         state := st, postal_code := pc, created_at := t } : Address).country =
        "Indonesia" ∧
      ({ user_id := uid, label := lb, full_address := fa, city := ct,
         state := st, postal_code := pc, created_at := t } : Address).is_default =
        false) ∧
    (∀ (lb fa ct st pc : String),
      ({ label := lb, full_address := fa, city := ct, state := st,
         postal_code := pc } : AddressCreate).country = "Indonesia" ∧
      ({ label := lb, full_address := fa, city := ct, state := st,
         postal_code := pc } : AddressCreate).is_default = false) :=
  ⟨fun _ _ _ _ _ _ _ => ⟨rfl, rfl⟩, fun _ _ _ _ _ => ⟨rfl, rfl⟩⟩

/-- C10: a `User` or `UserCreate` constructed without an explicit `role` has
`role = buyer`, and a `User` constructed without an explicit `is_active` is
active, whatever the supplied values of the remaining fields. -/
theorem user_defaults :
    (∀ (e ph fn : String) (t u : UtcTime),
      ({ email := e, password_hash := ph, full_name := fn, created_at := t,
         updated_at := u } : User).role = UserRole.buyer ∧
      ({ email := e, password_hash := ph, full_name := fn, created_at := t,
         updated_at := u } : User).is_active = true) ∧
    (∀ (e pw fn : String),
      ({ email := e, password := pw, full_name := fn } : UserCreate).role =
        UserRole.buyer) :=
  ⟨fun _ _ _ _ _ => ⟨rfl, rfl⟩, fun _ _ _ => rfl⟩
